import Mathlib

/-!
Shallow embedding of the toto OAuth core:
  - `src/toto-mcp/src/auth/secure-oauth-client.ts` (SecureOAuthClient:
    generateAuthUrl, handleCallback, validateState, cleanExpiredStates)
  - the token refresher (`TokenRefresher.getValidAccessToken` /
    `refreshAccessToken`), found in the repository sources
  - the token-manager interface (`src/src/auth/types.ts`), modelled as an
    in-memory `Option TokenSet` store.

Timestamps are milliseconds since epoch, modelled as `Int` (JS subtraction
on integral millisecond values). The `Map<string, StateEntry>` state store
is modelled as an association list with JS `Map` semantics (set replaces or
appends, delete removes, iteration in insertion order).
-/

namespace Toto

/-- TokenSet from `src/src/auth/types.ts`: accessToken, refreshToken,
expiresAt (unix ms), scope (space-delimited). -/
structure TokenSet where
  accessToken : String
  refreshToken : String
  expiresAt : Int
  scope : String
deriving DecidableEq, Repr

/-- Error taxonomy of `src/security/errors.ts` as far as the claims need it:
AuthorizationError (CSRF/state violation), AuthenticationError (upstream
exchange/refresh failure), TokenStorageError (secret-store failure). -/
inductive OAuthError where
  | authorizationError
  | authenticationError
  | tokenStorageError
deriving DecidableEq, Repr

/-- JS `x || d` on a number that may be absent: `undefined` and `0` are both
falsy, so a present-but-zero value also falls back to the default
(embeds `response.expiresOn?.getTime() || Date.now() + 3600000`). -/
def jsOrInt (x : Option Int) (d : Int) : Int :=
  match x with
  | some v => if v = 0 then d else v
  | none => d

/-- JS `s || d` on a string that may be absent: `undefined` and `""` are both
falsy (embeds `response.scopes?.join(' ') || this.scopes.join(' ')`). -/
def jsOrStr (x : Option String) (d : String) : String :=
  match x with
  | some v => if v = "" then d else v
  | none => d

/-- The fixed scope list `SecureOAuthClient.scopes`
(secure-oauth-client.ts line 32). -/
def requestedScopes : List String := ["Tasks.Read", "User.Read", "offline_access"]

/-- The in-memory `Map<string, StateEntry>` (`stateStore`, line 31); a
StateEntry carries only its creation `timestamp` in the embedded fragment. -/
abbrev StateStore := List (String × Int)

/-- `Map.get`: timestamp stored under a state token, if any. -/
def stateGet : StateStore → String → Option Int
  | [], _ => none
  | (k', v) :: rest, k => if k' = k then some v else stateGet rest k

/-- `Map.set`: replace the entry in place if the key is present, otherwise
append (JS `Map` keeps insertion order). -/
def stateSet (s : StateStore) (k : String) (v : Int) : StateStore :=
  if s.any (fun p => p.1 = k) then
    s.map (fun p => if p.1 = k then (k, v) else p)
  else s ++ [(k, v)]

/-- `Map.delete`: remove the entry with the given key. -/
def stateDelete (s : StateStore) (k : String) : StateStore :=
  s.filter (fun p => ¬(p.1 = k))

/-- `Map.size`, exposed by `getStateCount()` (line 229). -/
def stateCount (s : StateStore) : Nat := s.length

/-- `config.STATE_TIMEOUT_MINUTES * 60 * 1000` (lines 168 and 183); the
configured timeout in minutes, converted to milliseconds. -/
def maxAgeMs (timeoutMinutes : Nat) : Int := (timeoutMinutes : Int) * 60 * 1000

/-- `SecureOAuthClient.validateState` (lines 160-175): absent key yields
false; a present key is unconditionally removed (one-time use) and validity
is `Date.now() - stored.timestamp < maxAge`. -/
def validateState (timeoutMinutes : Nat) (now : Int) (s : StateStore)
    (state : String) : Bool × StateStore :=
  match stateGet s state with
  | none => (false, s)
  | some ts => (decide (now - ts < maxAgeMs timeoutMinutes), stateDelete s state)

/-- `SecureOAuthClient.cleanExpiredStates` (lines 181-197): delete every
entry with `now - entry.timestamp > maxAge` (strict greater-than). -/
def cleanExpiredStates (timeoutMinutes : Nat) (now : Int) (s : StateStore) :
    StateStore :=
  s.filter (fun p => ¬(now - p.2 > maxAgeMs timeoutMinutes))

/-- `SecureOAuthClient.generateAuthUrl` (lines 57-87). The fresh random
token is an explicit input `state`; the provider call
`msalClient.getAuthCodeUrl` is the oracle input `providerUrl` (`none` means
the call threw). Order as in the source: store the state with `Date.now()`,
sweep expired entries, then call the provider; a provider failure is
rethrown as AuthenticationError after the registry was already mutated. -/
def generateAuthUrl (timeoutMinutes : Nat) (now : Int) (state : String)
    (providerUrl : Option String) (s : StateStore) :
    Except OAuthError (String × String) × StateStore :=
  let s1 := stateSet s state now
  let s2 := cleanExpiredStates timeoutMinutes now s1
  match providerUrl with
  | some url => (.ok (url, state), s2)
  | none => (.error .authenticationError, s2)

/-- Shape of `msalClient.acquireTokenByCode`'s result as handleCallback reads
it: `accessToken`, optional `expiresOn` (a `Date`; embedded as its
`getTime()` millisecond value), optional `scopes` list. -/
structure MsalCodeResponse where
  accessToken : String
  expiresOn : Option Int
  scopes : Option (List String)
deriving DecidableEq, Repr

/-- Outcome of one awaited provider call: the call threw, or it resolved to
a value (for `acquireTokenByCode` the value may itself be `null`). -/
inductive ProviderCall (α : Type) where
  | throws
  | resolves (a : α)
deriving Repr

/-- Result record for one `handleCallback` run: the thrown error or unit,
the state registry afterward, the secret store afterward, and how many
provider network calls were made (instrumentation). -/
structure CallbackRun where
  result : Except OAuthError Unit
  states : StateStore
  store : Option TokenSet
  exchangeCalls : Nat
deriving Repr

/-- `SecureOAuthClient.handleCallback` (lines 98-151). The provider exchange
`acquireTokenByCode` and the MSAL cache accounts (`homeAccountId`s) are
oracle inputs. Control flow as in the source: validate the state first and
throw AuthorizationError on failure before any network call; inside the
try-block, a thrown exchange, a null/empty-accessToken response, or an
empty account list all surface as AuthenticationError (the catch rethrows
the inner AuthenticationErrors generically); otherwise a TokenSet is
persisted via `tokenManager.storeTokens`. -/
def handleCallback (timeoutMinutes : Nat) (now : Int) (code state : String)
    (exchange : ProviderCall (Option MsalCodeResponse))
    (accounts : List String) (s : StateStore) (store : Option TokenSet) :
    CallbackRun :=
  let v := validateState timeoutMinutes now s state
  if !v.1 then
    ⟨.error .authorizationError, v.2, store, 0⟩
  else
    match exchange with
    | .throws => ⟨.error .authenticationError, v.2, store, 1⟩
    | .resolves none => ⟨.error .authenticationError, v.2, store, 1⟩
    | .resolves (some r) =>
      if r.accessToken = "" then ⟨.error .authenticationError, v.2, store, 1⟩
      else
        match accounts with
        | [] => ⟨.error .authenticationError, v.2, store, 1⟩
        | account :: _ =>
          let tokens : TokenSet :=
            { accessToken := r.accessToken
              refreshToken := account
              expiresAt := jsOrInt r.expiresOn (now + 3600000)
              scope := jsOrStr (r.scopes.map (String.intercalate " "))
                (String.intercalate " " requestedScopes) }
          ⟨.ok (), v.2, some tokens, 1⟩

/-- The 5-minute expiry buffer of `TokenRefresher.getValidAccessToken`
(token-refresher line 40): `5 * 60 * 1000` ms. -/
def expiryBuffer : Int := 5 * 60 * 1000

/-- Outcome of one `msalClient.acquireTokenByRefreshToken` call: the call
threw, resolved to `null`, or resolved to a response carrying an
`accessToken` and an optional `expiresOn` (as its `getTime()` value). -/
inductive RefreshExchange where
  | throws
  | nullResponse
  | response (accessToken : String) (expiresOn : Option Int)
deriving DecidableEq, Repr

/-- `ITokenManager.updateAccessToken` on the in-memory store: partial
update that replaces `accessToken`/`expiresAt` and preserves
`refreshToken`/`scope` (keytar-token-manager.ts lines 101-108). It is only
reached with a populated store, since `getValidAccessToken` has already
read the tokens on the same cooperative turn. -/
def updateAccessToken (accessToken : String) (expiresAt : Int) :
    Option TokenSet → Option TokenSet
  | some t => some { t with accessToken := accessToken, expiresAt := expiresAt }
  | none => none

/-- `TokenRefresher.refreshAccessToken` (token-refresher lines 68-98): a
thrown exchange or a null response lands in the catch-block, which clears
the whole token set and throws AuthenticationError ("Session expired");
any non-null response is treated as success — its `accessToken` (checked
nowhere) is persisted via the partial update, with
`expiresOn?.getTime() || Date.now() + 3600000` as the new expiry — and
returned. -/
def refreshAccessToken (now : Int) (ex : RefreshExchange)
    (store : Option TokenSet) : Except OAuthError String × Option TokenSet :=
  match ex with
  | .throws => (.error .authenticationError, none)
  | .nullResponse => (.error .authenticationError, none)
  | .response a e => (.ok a, updateAccessToken a (jsOrInt e (now + 3600000)) store)

/-- Result record for one sequential `getValidAccessToken` run: returned
token or thrown error, the secret store afterward, and the number of
upstream refresh exchanges performed (instrumentation). -/
structure RefreshRun where
  result : Except OAuthError String
  store : Option TokenSet
  upstreamCalls : Nat
deriving Repr

/-- `TokenRefresher.getValidAccessToken` (token-refresher lines 36-58),
sequential single-caller semantics: read the tokens (a missing token set
makes `getTokens` throw TokenStorageError, propagated unchanged); if
`expiresAt - Date.now() > expiryBuffer` return the cached access token with
no upstream call; otherwise run the refresh exchange. -/
def getValidAccessToken (now : Int) (ex : RefreshExchange)
    (store : Option TokenSet) : RefreshRun :=
  match store with
  | none => ⟨.error .tokenStorageError, none, 0⟩
  | some tokens =>
    if tokens.expiresAt - now > expiryBuffer then
      ⟨.ok tokens.accessToken, some tokens, 0⟩
    else
      let r := refreshAccessToken now ex (some tokens)
      ⟨r.1, r.2, 1⟩

/-- Cooperative-concurrency state for N interleaved `getValidAccessToken`
callers (spec §5: code between awaits runs atomically). `inFlight` is the
`refreshPromise !== null` marker; `waiters` counts callers awaiting the
shared promise (the creator included — it awaits it too); `fastResults`
collects tokens returned on the fast path; `upstreamCalls` counts calls of
`refreshAccessToken`, i.e. upstream refresh exchanges started. -/
structure FlightState where
  store : Option TokenSet
  inFlight : Bool
  upstreamCalls : Nat
  waiters : Nat
  fastResults : List String
deriving DecidableEq, Repr

/-- One caller's atomic segment after its `await this.tokenManager.getTokens()`
resolves (token-refresher lines 41-51, no suspension inside): fresh token →
return it at once; stale token and a promise in flight → await that
promise; stale token and no promise → create the promise, which starts the
refresh exchange, and await it. A missing store (caller would rethrow the
storage error) is left untouched; the claims exclude it by hypothesis. -/
def arrive (now : Int) (fs : FlightState) : FlightState :=
  match fs.store with
  | none => fs
  | some tokens =>
    if tokens.expiresAt - now > expiryBuffer then
      { fs with fastResults := tokens.accessToken :: fs.fastResults }
    else if fs.inFlight then
      { fs with waiters := fs.waiters + 1 }
    else
      { fs with inFlight := true, upstreamCalls := fs.upstreamCalls + 1,
                waiters := fs.waiters + 1 }

/-- N arrivals in sequence (the callers are symmetric, so any cooperative
interleaving of the N atomic segments is this iteration). -/
def arrivals (now : Int) : Nat → FlightState → FlightState
  | 0, fs => fs
  | n + 1, fs => arrivals now n (arrive now fs)

/-- The shared refresh promise settles (token-refresher lines 52-57 plus
the body of refreshAccessToken): the store is updated or cleared, every
waiter — creator and joiners alike — resolves to the one outcome returned
here, and the creator's `finally` nulls out `refreshPromise`. -/
def settle (now : Int) (ex : RefreshExchange) (fs : FlightState) :
    FlightState × Except OAuthError String :=
  let r := refreshAccessToken now ex fs.store
  ({ fs with store := r.2, inFlight := false }, r.1)

/-! Basic lemmas about the state registry. -/

theorem stateGet_eq_none_iff (s : StateStore) (k : String) :
    stateGet s k = none ↔ ∀ p ∈ s, p.1 ≠ k := by
  induction s with
  | nil => simp [stateGet]
  | cons hd tl ih =>
    obtain ⟨k', v⟩ := hd
    by_cases h : k' = k
    · subst h
      simp [stateGet]
    · simp [stateGet, h, ih]

theorem stateSet_fresh (s : StateStore) (k : String) (v : Int)
    (h : stateGet s k = none) : stateSet s k v = s ++ [(k, v)] := by
  have hall := (stateGet_eq_none_iff s k).mp h
  unfold stateSet
  have : s.any (fun p => p.1 = k) = false := by
    simp only [List.any_eq_false]
    intro p hp
    simpa using hall p hp
  simp [this]

theorem stateGet_append_fresh (s : StateStore) (k : String) (v : Int)
    (h : stateGet s k = none) : stateGet (s ++ [(k, v)]) k = some v := by
  induction s with
  | nil => simp [stateGet]
  | cons hd tl ih =>
    obtain ⟨k', v'⟩ := hd
    by_cases hk : k' = k
    · subst hk
      simp [stateGet] at h
    · simp [stateGet, hk] at h ⊢
      exact ih h

theorem stateGet_delete_self (s : StateStore) (k : String) :
    stateGet (stateDelete s k) k = none := by
  rw [stateGet_eq_none_iff]
  intro p hp
  unfold stateDelete at hp
  have := List.of_mem_filter hp
  simpa using this

theorem cleanExpiredStates_cons_keep (timeoutMinutes : Nat) (now : Int)
    (k : String) (v : Int) (tl : StateStore)
    (h : ¬(now - v > maxAgeMs timeoutMinutes)) :
    cleanExpiredStates timeoutMinutes now ((k, v) :: tl) =
      (k, v) :: cleanExpiredStates timeoutMinutes now tl := by
  simp only [cleanExpiredStates, List.filter_cons]
  simp [h]

theorem cleanExpiredStates_cons_drop (timeoutMinutes : Nat) (now : Int)
    (k : String) (v : Int) (tl : StateStore)
    (h : now - v > maxAgeMs timeoutMinutes) :
    cleanExpiredStates timeoutMinutes now ((k, v) :: tl) =
      cleanExpiredStates timeoutMinutes now tl := by
  simp only [cleanExpiredStates, List.filter_cons]
  simp [h]

theorem stateGet_clean (timeoutMinutes : Nat) (now : Int) (s : StateStore)
    (k : String) (ts : Int) (hget : stateGet s k = some ts)
    (hkeep : ¬(now - ts > maxAgeMs timeoutMinutes)) :
    stateGet (cleanExpiredStates timeoutMinutes now s) k = some ts := by
  induction s with
  | nil => simp [stateGet] at hget
  | cons hd tl ih =>
    obtain ⟨k', v⟩ := hd
    by_cases hk : k' = k
    · subst hk
      simp [stateGet] at hget
      subst hget
      rw [cleanExpiredStates_cons_keep _ _ _ _ _ hkeep]
      simp [stateGet]
    · simp [stateGet, hk] at hget
      by_cases hv : now - v > maxAgeMs timeoutMinutes
      · rw [cleanExpiredStates_cons_drop _ _ _ _ _ hv]
        exact ih hget
      · rw [cleanExpiredStates_cons_keep _ _ _ _ _ hv]
        simp [stateGet, hk]
        exact ih hget

theorem validateState_absent (timeoutMinutes : Nat) (now : Int)
    (s : StateStore) (k : String) (h : stateGet s k = none) :
    validateState timeoutMinutes now s k = (false, s) := by
  simp [validateState, h]

theorem validateState_present (timeoutMinutes : Nat) (now : Int)
    (s : StateStore) (k : String) (ts : Int) (h : stateGet s k = some ts) :
    validateState timeoutMinutes now s k =
      (decide (now - ts < maxAgeMs timeoutMinutes), stateDelete s k) := by
  simp [validateState, h]

theorem maxAgeMs_nonneg (timeoutMinutes : Nat) : 0 ≤ maxAgeMs timeoutMinutes := by
  unfold maxAgeMs
  positivity

theorem generateAuthUrl_states (timeoutMinutes : Nat) (now : Int)
    (state : String) (providerUrl : Option String) (s : StateStore) :
    (generateAuthUrl timeoutMinutes now state providerUrl s).2 =
      cleanExpiredStates timeoutMinutes now (stateSet s state now) := by
  cases providerUrl <;> rfl

theorem stateGet_generateAuthUrl_fresh (timeoutMinutes : Nat) (now : Int)
    (state : String) (providerUrl : Option String) (s : StateStore)
    (hfresh : stateGet s state = none) :
    stateGet (generateAuthUrl timeoutMinutes now state providerUrl s).2 state =
      some now := by
  rw [generateAuthUrl_states, stateSet_fresh s state now hfresh]
  apply stateGet_clean
  · exact stateGet_append_fresh s state now hfresh
  · have := maxAgeMs_nonneg timeoutMinutes
    omega

/-! Claim theorems. -/

/-- C4: for every issued state token, a validation attempted after more
than `timeoutMinutes` have elapsed since issuance returns false, and the
attempt removes the entry from the registry regardless of the outcome. -/
theorem validateState_expired_consumes (timeoutMinutes : Nat) (t0 t1 : Int)
    (st : String) (s : StateStore) (hget : stateGet s st = some t0)
    (hlate : t1 - t0 > maxAgeMs timeoutMinutes) :
    (validateState timeoutMinutes t1 s st).1 = false ∧
    stateGet (validateState timeoutMinutes t1 s st).2 st = none := by
  rw [validateState_present timeoutMinutes t1 s st t0 hget]
  constructor
  · simp
    omega
  · exact stateGet_delete_self s st

theorem validateState_expired_consumes_witness :
    (validateState 5 (300001 : Int) [("aa", 0)] "aa").1 = false ∧
    stateGet (validateState 5 (300001 : Int) [("aa", 0)] "aa").2 "aa" = none :=
  validateState_expired_consumes 5 0 300001 "aa" [("aa", 0)] (by decide)
    (by decide)

/-- C5: whenever the state is missing, forged, expired, or already consumed
(that is, whenever `validateState` yields false), `handleCallback` throws
AuthorizationError with zero provider network calls made and the secret
store untouched — the authorization code is never exchanged under an
invalid state. -/
theorem handleCallback_invalid_state_no_network (timeoutMinutes : Nat)
    (now : Int) (code st : String)
    (exchange : ProviderCall (Option MsalCodeResponse))
    (accounts : List String) (s : StateStore) (store : Option TokenSet)
    (hbad : (validateState timeoutMinutes now s st).1 = false) :
    handleCallback timeoutMinutes now code st exchange accounts s store =
      ⟨.error .authorizationError, (validateState timeoutMinutes now s st).2,
        store, 0⟩ := by
  simp [handleCallback, hbad]

theorem handleCallback_invalid_state_no_network_witness :
    handleCallback 5 0 "code" "missing" (.resolves none) [] [] none =
      ⟨.error .authorizationError, (validateState 5 0 [] "missing").2,
        none, 0⟩ :=
  handleCallback_invalid_state_no_network 5 0 "code" "missing"
    (.resolves none) [] [] none (by decide)

/-- C6: with a cached token whose remaining lifetime strictly exceeds the
5-minute buffer, `getValidAccessToken` returns the cached access token,
performs no upstream exchange, and leaves the secret store unchanged;
concretely, a token expiring in 4 minutes triggers a refresh exchange and a
token expiring in 10 minutes does not. -/
theorem getValidAccessToken_fast_path (now : Int) (ex : RefreshExchange)
    (tokens : TokenSet) (hfresh : tokens.expiresAt - now > expiryBuffer) :
    getValidAccessToken now ex (some tokens) =
      ⟨.ok tokens.accessToken, some tokens, 0⟩ ∧
    (getValidAccessToken 0 ex
      (some ⟨"old", "rh", 4 * 60 * 1000, "sc"⟩)).upstreamCalls = 1 ∧
    (getValidAccessToken 0 ex
      (some ⟨"tok", "rh", 10 * 60 * 1000, "sc"⟩)).upstreamCalls = 0 := by
  refine ⟨?_, ?_, ?_⟩
  · simp [getValidAccessToken, hfresh]
  · have h4 : ¬(expiryBuffer < (240000 : Int)) := by decide
    simp [getValidAccessToken, h4]
  · have h10 : expiryBuffer < (600000 : Int) := by decide
    simp [getValidAccessToken, h10]

theorem getValidAccessToken_fast_path_witness :
    getValidAccessToken 0 .throws (some ⟨"cached", "rh", 10 * 60 * 1000, "sc"⟩) =
      ⟨.ok "cached", some ⟨"cached", "rh", 10 * 60 * 1000, "sc"⟩, 0⟩ :=
  (getValidAccessToken_fast_path 0 .throws
    ⟨"cached", "rh", 10 * 60 * 1000, "sc"⟩ (by decide)).1

/-- C10: the validity check is strict (`age < timeout`) while the sweep is
also strict in the other direction (`age > timeout`), so an entry aged
exactly the timeout fails validation yet survives the sweep: the registry
then contains (and counts) an entry that can never again validate true. -/
theorem boundary_entry_survives_sweep (timeoutMinutes : Nat) (ts : Int)
    (st : String) :
    (validateState timeoutMinutes (ts + maxAgeMs timeoutMinutes)
      [(st, ts)] st).1 = false ∧
    cleanExpiredStates timeoutMinutes (ts + maxAgeMs timeoutMinutes)
      [(st, ts)] = [(st, ts)] ∧
    stateCount (cleanExpiredStates timeoutMinutes (ts + maxAgeMs timeoutMinutes)
      [(st, ts)]) = 1 ∧
    (∀ t' : Int, ts + maxAgeMs timeoutMinutes ≤ t' →
      (validateState timeoutMinutes t' [(st, ts)] st).1 = false) := by
  have hget : stateGet [(st, ts)] st = some ts := by simp [stateGet]
  have hkeep : cleanExpiredStates timeoutMinutes (ts + maxAgeMs timeoutMinutes)
      [(st, ts)] = [(st, ts)] := by
    have : ¬(ts + maxAgeMs timeoutMinutes - ts > maxAgeMs timeoutMinutes) := by
      omega
    rw [cleanExpiredStates_cons_keep _ _ _ _ _ this]
    rfl
  refine ⟨?_, hkeep, ?_, ?_⟩
  · rw [validateState_present _ _ _ _ _ hget]
    simp
  · rw [hkeep]
    rfl
  · intro t' ht
    rw [validateState_present _ _ _ _ _ hget]
    simp
    omega

/-- C1: a state token minted by `generateAuthUrl` validates true on the
first `validateState` call iff its age is within the timeout, the first
call removes the entry, every subsequent call with the same token returns
false (and leaves the registry unchanged), and a second `handleCallback`
with the same state fails with AuthorizationError after a successful
first one. -/
theorem stateToken_single_use (tm : Nat) (t0 t1 t2 : Int)
    (code st url : String) (s s0 : StateStore) (r : MsalCodeResponse)
    (account : String) (accounts : List String) (store : Option TokenSet)
    (hfresh : stateGet s st = none)
    (hs0 : s0 = (generateAuthUrl tm t0 st (some url) s).2) :
    ((validateState tm t1 s0 st).1 = true ↔ t1 - t0 < maxAgeMs tm) ∧
    stateGet (validateState tm t1 s0 st).2 st = none ∧
    validateState tm t2 (validateState tm t1 s0 st).2 st =
      (false, (validateState tm t1 s0 st).2) ∧
    (t1 - t0 < maxAgeMs tm → r.accessToken ≠ "" →
      (handleCallback tm t1 code st (.resolves (some r)) (account :: accounts)
        s0 store).result = .ok () ∧
      (handleCallback tm t2 code st (.resolves (some r)) (account :: accounts)
        (handleCallback tm t1 code st (.resolves (some r)) (account :: accounts)
          s0 store).states
        (handleCallback tm t1 code st (.resolves (some r)) (account :: accounts)
          s0 store).store).result = .error .authorizationError) := by
  have hgets0 : stateGet s0 st = some t0 := by
    rw [hs0]
    exact stateGet_generateAuthUrl_fresh tm t0 st (some url) s hfresh
  have hval1 : validateState tm t1 s0 st =
      (decide (t1 - t0 < maxAgeMs tm), stateDelete s0 st) :=
    validateState_present tm t1 s0 st t0 hgets0
  refine ⟨?_, ?_, ?_, ?_⟩
  · rw [hval1]
    simp
  · rw [hval1]
    exact stateGet_delete_self s0 st
  · rw [hval1]
    exact validateState_absent tm t2 (stateDelete s0 st) st
      (stateGet_delete_self s0 st)
  · intro hin hr
    have hdel := stateGet_delete_self s0 st
    have hstates : (handleCallback tm t1 code st (.resolves (some r))
        (account :: accounts) s0 store).states = stateDelete s0 st := by
      simp [handleCallback, hval1, hin, hr]
    constructor
    · simp [handleCallback, hval1, hin, hr]
    · rw [hstates]
      simp [handleCallback,
        validateState_absent tm t2 (stateDelete s0 st) st hdel]

theorem stateToken_single_use_witness :
    stateGet (validateState 5 1 [("st", (0 : Int))] "st").2 "st" = none ∧
    (handleCallback 5 1 "c" "st" (.resolves (some ⟨"tok", none, none⟩))
      ["acct"] [("st", (0 : Int))] none).result = .ok () :=
  ⟨(stateToken_single_use 5 0 1 2 "c" "st" "u" [] [("st", 0)]
      ⟨"tok", none, none⟩ "acct" [] none (by decide) (by decide)).2.1,
    ((stateToken_single_use 5 0 1 2 "c" "st" "u" [] [("st", 0)]
      ⟨"tok", none, none⟩ "acct" [] none (by decide) (by decide)).2.2.2
      (by decide) (by decide)).1⟩

/-- C8: every `generateAuthUrl` call sweeps all entries older than the
timeout before returning (no surviving entry has age strictly above
`maxAge`), and in the concrete scenario — issue 3 states, advance past the
5-minute timeout, issue a 4th — the registry count equals 1. -/
theorem issue_sweeps_expired (tm : Nat) (now : Int) (st : String)
    (providerUrl : Option String) (s : StateStore) (q : String × Int)
    (hq : q ∈ (generateAuthUrl tm now st providerUrl s).2) :
    ¬(now - q.2 > maxAgeMs tm) ∧
    stateCount (generateAuthUrl 5 300001 "d" (some "u")
      (generateAuthUrl 5 0 "c" (some "u")
        (generateAuthUrl 5 0 "b" (some "u")
          (generateAuthUrl 5 0 "a" (some "u") []).2).2).2).2 = 1 := by
  constructor
  · rw [generateAuthUrl_states] at hq
    have := List.of_mem_filter hq
    simpa using this
  · decide

theorem issue_sweeps_expired_witness :
    ¬((0 : Int) - ("a", (0 : Int)).2 > maxAgeMs 5) :=
  (issue_sweeps_expired 5 0 "a" (some "u") [] ("a", 0) (by decide)).1

/-- C9 (implicit): `generateAuthUrl` registers the fresh state before the
provider call, so when that call fails and AuthenticationError is thrown,
the orphaned entry is still in the registry — the count went up by one
(here under the premise that no pre-existing entry was ripe for the sweep)
and the orphan validates true within the timeout, although no
authorization URL was ever returned for it. -/
theorem failed_generateAuthUrl_leaves_orphan_state (tm : Nat) (t0 : Int)
    (st : String) (s : StateStore) (hfresh : stateGet s st = none)
    (hlive : ∀ p ∈ s, ¬(t0 - p.2 > maxAgeMs tm)) :
    (generateAuthUrl tm t0 st none s).1 = .error .authenticationError ∧
    stateGet (generateAuthUrl tm t0 st none s).2 st = some t0 ∧
    stateCount (generateAuthUrl tm t0 st none s).2 = stateCount s + 1 ∧
    ∀ t1 : Int, t1 - t0 < maxAgeMs tm →
      (validateState tm t1 (generateAuthUrl tm t0 st none s).2 st).1 = true := by
  have hget := stateGet_generateAuthUrl_fresh tm t0 st none s hfresh
  refine ⟨rfl, hget, ?_, ?_⟩
  · rw [generateAuthUrl_states, stateSet_fresh s st t0 hfresh]
    have hall : cleanExpiredStates tm t0 (s ++ [(st, t0)]) = s ++ [(st, t0)] := by
      unfold cleanExpiredStates
      rw [List.filter_eq_self]
      intro a ha
      rcases List.mem_append.mp ha with h | h
      · simpa using hlive a h
      · simp at h
        subst h
        have := maxAgeMs_nonneg tm
        simp
        omega
    rw [hall]
    simp [stateCount]
  · intro t1 ht
    rw [validateState_present tm t1 _ st t0 hget]
    simpa using ht

theorem failed_generateAuthUrl_leaves_orphan_state_witness :
    stateCount (generateAuthUrl 5 0 "st" none [("x", (0 : Int))]).2 =
      stateCount [("x", (0 : Int))] + 1 :=
  (failed_generateAuthUrl_leaves_orphan_state 5 0 "st" [("x", 0)]
    (by decide) (by decide)).2.2.1

theorem boundary_entry_survives_sweep_witness :
    (validateState 5 ((0 : Int) + maxAgeMs 5) [("bb", 0)] "bb").1 = false ∧
    cleanExpiredStates 5 ((0 : Int) + maxAgeMs 5) [("bb", 0)] = [("bb", 0)] :=
  ⟨(boundary_entry_survives_sweep 5 0 "bb").1,
    (boundary_entry_survives_sweep 5 0 "bb").2.1⟩

theorem arrivals_joining (now : Int) (tokens : TokenSet)
    (hst : ¬(tokens.expiresAt - now > expiryBuffer)) :
    ∀ n w : Nat, arrivals now n ⟨some tokens, true, 1, w, []⟩ =
      ⟨some tokens, true, 1, w + n, []⟩ := by
  intro n
  induction n with
  | zero =>
    intro w
    rfl
  | succ m ih =>
    intro w
    show arrivals now m (arrive now ⟨some tokens, true, 1, w, []⟩) = _
    have harr : arrive now ⟨some tokens, true, 1, w, []⟩ =
        ⟨some tokens, true, 1, w + 1, []⟩ := by
      simp [arrive, hst]
    rw [harr, ih (w + 1)]
    congr 1
    omega

theorem arrivals_fresh_start (now : Int) (tokens : TokenSet) (n : Nat)
    (hst : ¬(tokens.expiresAt - now > expiryBuffer)) (hn : 1 ≤ n) :
    arrivals now n ⟨some tokens, false, 0, 0, []⟩ =
      ⟨some tokens, true, 1, n, []⟩ := by
  obtain ⟨m, rfl⟩ : ∃ m, n = m + 1 := ⟨n - 1, by omega⟩
  show arrivals now m (arrive now ⟨some tokens, false, 0, 0, []⟩) = _
  have hfirst : arrive now ⟨some tokens, false, 0, 0, []⟩ =
      ⟨some tokens, true, 1, 1, []⟩ := by
    simp [arrive, hst]
  rw [hfirst, arrivals_joining now tokens hst m 1]
  congr 1
  omega

/-- C3: with N ≥ 1 cooperatively interleaved `getValidAccessToken` callers
arriving while the cached token's remaining lifetime is below the buffer,
exactly one upstream refresh exchange is started (`upstreamCalls = 1`), no
caller resolves on the fast path and all N await the one shared promise
(`waiters = N`, `fastResults = []`), settling delivers that single
exchange's outcome and store effect, and the in-flight marker is cleared
once the refresh settles. -/
theorem single_flight_refresh (now : Int) (ex : RefreshExchange)
    (tokens : TokenSet) (n : Nat)
    (hstale : tokens.expiresAt - now < expiryBuffer) (hn : 1 ≤ n) :
    arrivals now n ⟨some tokens, false, 0, 0, []⟩ =
      ⟨some tokens, true, 1, n, []⟩ ∧
    (settle now ex (arrivals now n
      ⟨some tokens, false, 0, 0, []⟩)).1.upstreamCalls = 1 ∧
    (settle now ex (arrivals now n ⟨some tokens, false, 0, 0, []⟩)).2 =
      (refreshAccessToken now ex (some tokens)).1 ∧
    (settle now ex (arrivals now n ⟨some tokens, false, 0, 0, []⟩)).1.store =
      (refreshAccessToken now ex (some tokens)).2 ∧
    (settle now ex (arrivals now n
      ⟨some tokens, false, 0, 0, []⟩)).1.inFlight = false := by
  have hst : ¬(tokens.expiresAt - now > expiryBuffer) := by omega
  rw [arrivals_fresh_start now tokens n hst hn]
  exact ⟨rfl, rfl, rfl, rfl, rfl⟩

theorem single_flight_refresh_witness :
    arrivals 0 3 ⟨some ⟨"old", "rh", 0, "sc"⟩, false, 0, 0, []⟩ =
      ⟨some ⟨"old", "rh", 0, "sc"⟩, true, 1, 3, []⟩ :=
  (single_flight_refresh 0 (.response "new" (some 7200000))
    ⟨"old", "rh", 0, "sc"⟩ 3 (by decide) (by decide)).1

/-- C2, counterexample: an upstream refresh response whose access token is
the empty string is not treated as a failure — after one waiting caller and
the settle, the secret store still holds a token set (now with the empty
access token persisted, violating the never-persist-empty invariant) and
the caller resolves successfully with `""` instead of receiving
AuthenticationError. -/
theorem refresh_empty_token_not_fail_secure :
    (settle 0 (.response "" (some 1)) (arrivals 0 1
      ⟨some ⟨"old", "rh", 0, "sc"⟩, false, 0, 0, []⟩)).1.store =
      some ⟨"", "rh", 1, "sc"⟩ ∧
    (settle 0 (.response "" (some 1)) (arrivals 0 1
      ⟨some ⟨"old", "rh", 0, "sc"⟩, false, 0, 0, []⟩)).2 = .ok "" := by
  constructor <;> rfl

/-- C2, amended: if the upstream refresh exchange throws (provider
rejection, network error) or resolves to a null response, the secret
store's token set is cleared entirely and AuthenticationError is delivered
to all N waiting callers; a non-null response with an empty access token,
however, is treated as success: the empty token is persisted by the partial
update and returned to the waiters. -/
theorem refresh_failure_fail_secure (now : Int) (ex : RefreshExchange)
    (tokens : TokenSet) (n : Nat) (eo : Option Int)
    (hstale : tokens.expiresAt - now < expiryBuffer) (hn : 1 ≤ n)
    (hfail : ex = .throws ∨ ex = .nullResponse) :
    (settle now ex (arrivals now n
      ⟨some tokens, false, 0, 0, []⟩)).1.store = none ∧
    (settle now ex (arrivals now n ⟨some tokens, false, 0, 0, []⟩)).2 =
      .error .authenticationError ∧
    (arrivals now n ⟨some tokens, false, 0, 0, []⟩).waiters = n ∧
    (settle now (.response "" eo) (arrivals now n
      ⟨some tokens, false, 0, 0, []⟩)).2 = .ok "" ∧
    (settle now (.response "" eo) (arrivals now n
      ⟨some tokens, false, 0, 0, []⟩)).1.store =
      some { tokens with accessToken := "",
                         expiresAt := jsOrInt eo (now + 3600000) } := by
  have hst : ¬(tokens.expiresAt - now > expiryBuffer) := by omega
  rw [arrivals_fresh_start now tokens n hst hn]
  refine ⟨?_, ?_, rfl, rfl, rfl⟩
  · rcases hfail with h | h <;> subst h <;> rfl
  · rcases hfail with h | h <;> subst h <;> rfl

theorem refresh_failure_fail_secure_witness :
    (settle 0 .throws (arrivals 0 1
      ⟨some ⟨"old", "rh", 0, "sc"⟩, false, 0, 0, []⟩)).1.store = none ∧
    (settle 0 .throws (arrivals 0 1
      ⟨some ⟨"old", "rh", 0, "sc"⟩, false, 0, 0, []⟩)).2 =
      .error .authenticationError :=
  ⟨(refresh_failure_fail_secure 0 .throws ⟨"old", "rh", 0, "sc"⟩ 1 none
      (by decide) (by decide) (Or.inl rfl)).1,
    (refresh_failure_fail_secure 0 .throws ⟨"old", "rh", 0, "sc"⟩ 1 none
      (by decide) (by decide) (Or.inl rfl)).2.1⟩

/-- C7, counterexample: with a valid state, one account, and a provider
response carrying access token "tok", an epoch expiry (`expiresOn` whose
`getTime()` is 0) and an empty granted-scope list, `handleCallback`
succeeds but — because both defaults are applied through JS `||`, which
also fires on the falsy values 0 and "" — the persisted token set carries
`now + 1h` instead of the provider's expiry 0 and the requested scope set
instead of the provider's (empty) granted-scope join. -/
theorem callback_falsy_defaults :
    (handleCallback 5 0 "c" "st" (.resolves (some ⟨"tok", some 0, some []⟩))
      ["acct"] [("st", (0 : Int))] none).result = .ok () ∧
    (handleCallback 5 0 "c" "st" (.resolves (some ⟨"tok", some 0, some []⟩))
      ["acct"] [("st", (0 : Int))] none).store =
      some ⟨"tok", "acct", 3600000, "Tasks.Read User.Read offline_access"⟩ ∧
    (handleCallback 5 0 "c" "st" (.resolves (some ⟨"tok", some 0, some []⟩))
      ["acct"] [("st", (0 : Int))] none).store ≠
      some ⟨"tok", "acct", 0, ""⟩ := by
  refine ⟨rfl, by decide, by decide⟩

/-- C7, amended: for every successful `handleCallback` with a valid state,
a provider exchange returning a non-empty access token, and at least one
account, the secret store afterward holds the TokenSet whose accessToken is
the provider's access token and whose refreshToken is the first account's
handle; its expiresAt is the provider's expiry when that is present and
nonzero, and now + 1 hour otherwise (absent or epoch/zero expiry, by JS
`||`); its scope is the provider's granted scopes joined when that join is
non-empty, and the requested scope set otherwise (absent or empty-joining
scopes, by JS `||`). -/
theorem callback_persists_provider_token (tm : Nat) (now t0 : Int)
    (code st : String) (r : MsalCodeResponse) (account : String)
    (accounts : List String) (s : StateStore) (store : Option TokenSet)
    (hget : stateGet s st = some t0) (hvalid : now - t0 < maxAgeMs tm)
    (htok : r.accessToken ≠ "") :
    (handleCallback tm now code st (.resolves (some r)) (account :: accounts)
      s store).result = .ok () ∧
    (handleCallback tm now code st (.resolves (some r)) (account :: accounts)
      s store).store =
      some ⟨r.accessToken, account, jsOrInt r.expiresOn (now + 3600000),
        jsOrStr (r.scopes.map (String.intercalate " "))
          (String.intercalate " " requestedScopes)⟩ := by
  have hval := validateState_present tm now s st t0 hget
  constructor
  · simp [handleCallback, hval, hvalid, htok]
  · simp [handleCallback, hval, hvalid, htok]

theorem callback_persists_provider_token_witness :
    (handleCallback 5 1 "c" "st" (.resolves (some ⟨"tok", some 7, some ["A"]⟩))
      ["acct"] [("st", (0 : Int))] none).result = .ok () ∧
    (handleCallback 5 1 "c" "st" (.resolves (some ⟨"tok", some 7, some ["A"]⟩))
      ["acct"] [("st", (0 : Int))] none).store =
      some ⟨"tok", "acct",
        jsOrInt (some 7) ((1 : Int) + 3600000),
        jsOrStr ((some ["A"]).map (String.intercalate " "))
          (String.intercalate " " requestedScopes)⟩ :=
  callback_persists_provider_token 5 1 0 "c" "st" ⟨"tok", some 7, some ["A"]⟩
    "acct" [] [("st", 0)] none (by decide) (by decide) (by decide)

end Toto
